import Mathlib

/-!
Verification development for the command-dispatch engine of myshell.c.

The source dispatches one tokenized command line: foreground, background
(trailing "&"), two-command pipeline ("|"), or output redirection (">").
The embedding models the argument vector as a list of optional strings
(a NULL entry is none), syscall outcomes as an explicit environment, and
each process by the sequence of calls it performs plus its final fate.

Modelling conventions:
* fork / pipe / open / execvp / waitpid outcomes are oracle fields of Env,
  since they are decided by the operating system;
* signal(2) with a valid signal number and handler cannot fail, so the
  SIG_ERR branches of the source are not modelled;
* error_handling in the source calls perror and then exit(EXIT_FAILURE);
  a call from the shell process therefore terminates the shell process
  (Ret.exited), and any return statement after such a call is unreachable;
* file descriptor numbers: a process starts with slots 0, 1, 2 open;
  pipe(2) returns the two lowest free slots, modelled as 3 (read end) and
  4 (write end); the open(2) in the redirected child likewise returns 3;
* errno values are the Linux ones: ECHILD = 10, EINTR = 4, EIO = 5.
-/

namespace Myshell

/-- The two signals the source manipulates. -/
inductive Sig where
  | sigint
  | sigchld
deriving DecidableEq, BEq, Repr

/-- A signal disposition: ignored (SIG_IGN) or default (SIG_DFL). -/
inductive Disp where
  | ign
  | dfl
deriving DecidableEq, BEq, Repr

/-- The argument vector: a C array of char pointers; none models NULL.
Reads past the end of the list fall into the NULL sentinel region. -/
abbrev Argv := List (Option String)

/-- The vector the external tokenizer hands over: all entries non-NULL. -/
def ofTokens (ts : List String) : Argv := ts.map some

/-- Reading cmd_args[i]; an out-of-range read yields the NULL sentinel. -/
def argAt (a : Argv) (i : Nat) : Option String := (a.get? i).getD none

/-- Writing cmd_args[i] = NULL at a possibly negative C index.  A write at
a negative index is out of bounds (undefined behavior in C); the dispatch
model records it in its write log, and the modelled vector is unchanged. -/
def setNullAt (a : Argv) (i : Int) : Argv :=
  if 0 ≤ i then a.set i.toNat none else a

/-- The argument list that an exec call starting at a given slot actually
passes to the new program: the entries up to the first NULL. -/
def cExecArgv (a : Argv) (start : Nat) : List String :=
  ((a.drop start).takeWhile Option.isSome).filterMap id

def EXIT_FAILURE : Nat := 1
def ECHILD : Nat := 10
def EINTR : Nat := 4
def EIO : Nat := 5

/-- Outcomes of the syscalls one dispatch can perform, supplied by the
operating system.  fork1 is the first (or only) fork of a dispatch and
fork2 the second fork of a pipeline; exec1 / exec2 and wait1 / wait2
correspond likewise.  A wait entry none means waitpid succeeded; some e
means waitpid returned -1 with errno e. -/
structure Env where
  pipeOk : Bool
  fork1Ok : Bool
  fork2Ok : Bool
  openOk : Bool
  exec1Ok : Bool
  exec2Ok : Bool
  wait1Err : Option Nat
  wait2Err : Option Nat
deriving DecidableEq, Repr

/-- Result of a dispatch for the shell process: either the dispatch
function returns an int to its caller, or the shell process terminates
through exit (as error_handling does). -/
inductive Ret where
  | ret (v : Int)
  | exited (code : Nat)
deriving DecidableEq, Repr

/-- Fate of a forked child: replaced by a program through a successful
exec (recording the program name and the argument list passed), or
terminated with an exit code. -/
inductive ChildFate where
  | execed (prog : String) (argv : List String)
  | exited (code : Nat)
deriving DecidableEq, Repr

/-- Calls a process performs, in order.  fork and wait events are recorded
for successful calls only; closeFd / dup / openFile carry descriptor
slot numbers. -/
inductive Event where
  | fork (k : Nat)
  | wait (k : Nat)
  | setsig (s : Sig) (d : Disp)
  | closeFd (n : Nat)
  | dup (src dst : Nat)
  | openFile (path : String) (fd : Nat)
  | exec
deriving DecidableEq, BEq, Repr

/-- Execution mode resolved by process_arglist. -/
inductive Mode where
  | foreground
  | background
  | piped (i : Nat)
  | redirected (i : Nat)
deriving DecidableEq, Repr

/-- What a mode handler produces: the value the parent returns (or the
exit it performs), the calls the parent performs, the raw indices of the
in-place NULL writes to the argument vector (whether performed by the
parent or inside a child), and the forked children with their calls and
fates. -/
structure HandlerOut where
  ret : Ret
  parentEvents : List Event
  writes : List Int
  children : List (List Event × ChildFate)
deriving DecidableEq, Repr

/-- A full dispatch: a HandlerOut plus the resolved mode. -/
structure DispatchOut where
  ret : Ret
  mode : Mode
  parentEvents : List Event
  writes : List Int
  children : List (List Event × ChildFate)
deriving DecidableEq, Repr

/-- Outcome of execvp(cmd_args[start], cmd_args + start) inside a child:
exec of a NULL program name fails, and any exec failure reaches
error_handling, which exits the child with EXIT_FAILURE. -/
def childFate (a : Argv) (start : Nat) (execOk : Bool) : ChildFate :=
  match argAt a start with
  | none => ChildFate.exited EXIT_FAILURE
  | some prog =>
      if execOk then ChildFate.execed prog (cExecArgv a start)
      else ChildFate.exited EXIT_FAILURE

/-- Source wait_and_handle_error: a waitpid failure with errno other than
ECHILD or EINTR reports the error and returns 0; success or a benign
failure returns 1. -/
def wait_and_handle_error (waitErr : Option Nat) : Bool :=
  match waitErr with
  | some e => if e = ECHILD ∨ e = EINTR then true else false
  | none => true

/-- Signal resets of the foreground child in execute_sync, in source
order: SIGINT to default, SIGCHLD to default, then execvp. -/
def execute_sync_child_events : List Event :=
  [Event.setsig Sig.sigint Disp.dfl, Event.setsig Sig.sigchld Disp.dfl, Event.exec]

/-- execute_sync: fork; on fork failure error_handling exits the shell
(the return 0 after it is unreachable).  The child resets SIGINT and
SIGCHLD and execs.  The parent waits inline: a waitpid failure with errno
outside ECHILD / EINTR reaches error_handling, which exits the shell
(again the return 0 after it is unreachable). -/
def execute_sync (env : Env) (cmd_args : Argv) : HandlerOut :=
  if env.fork1Ok = false then ⟨Ret.exited EXIT_FAILURE, [], [], []⟩
  else
    ⟨(match env.wait1Err with
      | some e => if e = ECHILD ∨ e = EINTR then Ret.ret 1 else Ret.exited EXIT_FAILURE
      | none => Ret.ret 1),
     [Event.fork 1, Event.wait 1], [],
     [(execute_sync_child_events, childFate cmd_args 0 env.exec1Ok)]⟩

/-- Calls of the background child in execute_child: SIGCHLD reset only
(no SIGINT reset), then execvp. -/
def execute_child_events : List Event :=
  [Event.setsig Sig.sigchld Disp.dfl, Event.exec]

/-- Source execute_child, run inside the background child.  It receives
the already decremented argument count and overwrites
cmd_args[num_args - 1] with NULL before the exec. -/
def execute_child (num_args : Int) (cmd_args : Argv) (execOk : Bool) :
    List Int × (List Event × ChildFate) :=
  let a := setNullAt cmd_args (num_args - 1)
  ([num_args - 1], (execute_child_events, childFate a 0 execOk))

/-- execute_async: fork; on fork failure error_handling exits the shell.
The child runs execute_child; the parent performs no wait and returns 1
immediately. -/
def execute_async (env : Env) (num_args : Int) (cmd_args : Argv) : HandlerOut :=
  if env.fork1Ok = false then ⟨Ret.exited EXIT_FAILURE, [], [], []⟩
  else
    let c := execute_child num_args cmd_args env.exec1Ok
    ⟨Ret.ret 1, [Event.fork 1], c.1, [c.2]⟩

/-- Calls of set_child_signal_handling: SIGINT and SIGCHLD to default. -/
def set_child_signal_handling_events : List Event :=
  [Event.setsig Sig.sigint Disp.dfl, Event.setsig Sig.sigchld Disp.dfl]

/-- Calls of the first pipeline child: signal resets, close the unused
read end (slot 3), dup the write end (slot 4) onto stdout (slot 1), close
the original write end, exec the left command. -/
def pipe_child1_events : List Event :=
  set_child_signal_handling_events ++
    [Event.closeFd 3, Event.dup 4 1, Event.closeFd 4, Event.exec]

/-- Calls of the second pipeline child: signal resets, close the unused
write end (slot 4), dup the read end (slot 3) onto stdin (slot 0), close
the original read end, exec the right command. -/
def pipe_child2_events : List Event :=
  set_child_signal_handling_events ++
    [Event.closeFd 4, Event.dup 3 0, Event.closeFd 3, Event.exec]

/-- establish_pipe(index, cmd_args): overwrite cmd_args[index] with NULL;
create the pipe; fork the first child, fork the second child; the parent
then closes both pipe descriptors and waits for each child in turn with
wait_and_handle_error.  pipe or fork failure reaches error_handling,
which exits the shell (the return 0 after it is unreachable).  A serious
failure of the first wait returns 0 before the second wait happens. -/
def establish_pipe (env : Env) (index : Nat) (cmd_args : Argv) : HandlerOut :=
  let a := setNullAt cmd_args (index : Int)
  let ws : List Int := [(index : Int)]
  if env.pipeOk = false then ⟨Ret.exited EXIT_FAILURE, [], ws, []⟩
  else if env.fork1Ok = false then ⟨Ret.exited EXIT_FAILURE, [], ws, []⟩
  else
    let c1 : List Event × ChildFate := (pipe_child1_events, childFate a 0 env.exec1Ok)
    if env.fork2Ok = false then ⟨Ret.exited EXIT_FAILURE, [Event.fork 1], ws, [c1]⟩
    else
      let c2 : List Event × ChildFate :=
        (pipe_child2_events, childFate a (index + 1) env.exec2Ok)
      ⟨(if wait_and_handle_error env.wait1Err = false then Ret.ret 0
        else if wait_and_handle_error env.wait2Err = false then Ret.ret 0
        else Ret.ret 1),
       [Event.fork 1, Event.fork 2, Event.closeFd 3, Event.closeFd 4, Event.wait 1] ++
         (if wait_and_handle_error env.wait1Err then [Event.wait 2] else []),
       ws, [c1, c2]⟩

/-- Source open_and_redirect_file: open the file write-only with create
and truncate, mode 0777; a failed open reaches error_handling, which
exits the child.  On success dup the descriptor (slot 3) onto stdout and
close the original.  A NULL filename (modelled as none) makes the open
fail. -/
def open_and_redirect_file (filename : Option String) (openOk : Bool) :
    List Event × Bool :=
  match filename with
  | none => ([], false)
  | some f =>
      if openOk then ([Event.openFile f 3, Event.dup 3 1, Event.closeFd 3], true)
      else ([], false)

/-- setup_output_redirection(num_args, cmd_args).  The body treats its
first parameter as a count: it overwrites cmd_args[num_args - 2] with
NULL, reads the filename from cmd_args[num_args - 1], forks, and in the
child resets signals, opens and redirects the file, and execs
cmd_args[0].  The parent waits with wait_and_handle_error.  Note the
caller in process_arglist passes the redirect marker index as num_args. -/
def setup_output_redirection (env : Env) (num_args : Int) (cmd_args : Argv) :
    HandlerOut :=
  let a := setNullAt cmd_args (num_args - 2)
  let ws : List Int := [num_args - 2]
  if env.fork1Ok = false then ⟨Ret.exited EXIT_FAILURE, [], ws, []⟩
  else
    let filename := if 0 ≤ num_args - 1 then argAt a (num_args - 1).toNat else none
    let opened := open_and_redirect_file filename env.openOk
    ⟨(if wait_and_handle_error env.wait1Err then Ret.ret 1 else Ret.ret 0),
     [Event.fork 1, Event.wait 1], ws,
     [(set_child_signal_handling_events ++ opened.1 ++
         (if opened.2 then [Event.exec] else []),
       if opened.2 then childFate a 0 env.exec1Ok else ChildFate.exited EXIT_FAILURE)]⟩

/-- The marker scan of process_arglist: walk i = start, start+1, ... below
n and stop at the first entry equal to "|" (giving (true, i)) or ">"
(giving (false, i)).  The fuel argument makes the recursion structural;
the scan starts with fuel n at index 0, so fuel never runs out early. -/
def findMarkerFuel (a : Argv) (n : Nat) : Nat → Nat → Option (Bool × Nat)
  | _, 0 => none
  | i, fuel + 1 =>
    if i < n then
      match argAt a i with
      | some s =>
          if s = "|" then some (true, i)
          else if s = ">" then some (false, i)
          else findMarkerFuel a n (i + 1) fuel
      | none => findMarkerFuel a n (i + 1) fuel
    else none

def findMarker (a : Argv) (n : Nat) : Option (Bool × Nat) := findMarkerFuel a n 0 n

/-- Assemble a DispatchOut from a handler result, the resolved mode and
the writes the classifier itself performed. -/
def mkDispatch (h : HandlerOut) (m : Mode) (ws : List Int) : DispatchOut :=
  ⟨h.ret, m, h.parentEvents, ws ++ h.writes, h.children⟩

/-- Source process_arglist: if the last argument is "&", overwrite it
with NULL and decrement the count; scan for the first "|" or ">"; then
dispatch to establish_pipe, setup_output_redirection (passing the marker
index), execute_async (passing the decremented count) or execute_sync. -/
def process_arglist (env : Env) (num_args : Nat) (cmd_args : Argv) : DispatchOut :=
  if 0 < num_args ∧ argAt cmd_args (num_args - 1) = some "&" then
    match findMarker (setNullAt cmd_args ((num_args : Int) - 1)) (num_args - 1) with
    | some (true, i) =>
        mkDispatch (establish_pipe env i (setNullAt cmd_args ((num_args : Int) - 1)))
          (Mode.piped i) [(num_args : Int) - 1]
    | some (false, i) =>
        mkDispatch
          (setup_output_redirection env (i : Int)
            (setNullAt cmd_args ((num_args : Int) - 1)))
          (Mode.redirected i) [(num_args : Int) - 1]
    | none =>
        mkDispatch
          (execute_async env ((num_args - 1 : Nat) : Int)
            (setNullAt cmd_args ((num_args : Int) - 1)))
          Mode.background [(num_args : Int) - 1]
  else
    match findMarker cmd_args num_args with
    | some (true, i) => mkDispatch (establish_pipe env i cmd_args) (Mode.piped i) []
    | some (false, i) =>
        mkDispatch (setup_output_redirection env (i : Int) cmd_args)
          (Mode.redirected i) []
    | none => mkDispatch (execute_sync env cmd_args) Mode.foreground []

/-! Derived observations of a dispatch. -/

def pathOfEvent : Event → Option String
  | Event.openFile p _ => some p
  | _ => none

/-- All file paths opened for redirection by children of a dispatch. -/
def openedPaths (d : DispatchOut) : List String :=
  (d.children.map (fun c => c.1.filterMap pathOfEvent)).flatten

/-- All file paths opened by children of a handler result. -/
def openedPathsH (h : HandlerOut) : List String :=
  (h.children.map (fun c => c.1.filterMap pathOfEvent)).flatten

def isWaitEvent : Event → Bool
  | Event.wait _ => true
  | _ => false

/-- How many waitpid calls the parent performs during the dispatch. -/
def waitCount (es : List Event) : Nat := es.countP isWaitEvent

/-- The argument lists actually passed to successfully exec-ed programs. -/
def execArgvs (d : DispatchOut) : List (List String) :=
  d.children.filterMap (fun c =>
    match c.2 with
    | ChildFate.execed _ v => some v
    | _ => none)

/-- The fates of the forked children, in fork order. -/
def dispatchFates (d : DispatchOut) : List ChildFate := d.children.map Prod.snd

/-! Signal disposition model. -/

def setDisp (f : Sig → Disp) (s : Sig) (d : Disp) : Sig → Disp :=
  fun x => if x = s then d else f x

/-- Source prepare: install the ignore disposition for SIGINT and then
for SIGCHLD, for the shell process. -/
def prepare (f : Sig → Disp) : Sig → Disp :=
  setDisp (setDisp f Sig.sigint Disp.ign) Sig.sigchld Disp.ign

/-- Default dispositions before the shell configures anything. -/
def bootDisp : Sig → Disp := fun _ => Disp.dfl

/-- The shell dispositions after prepare has run. -/
def shellDisp : Sig → Disp := prepare bootDisp

/-- Dispositions of a child that inherited f at fork time and then
performed the given calls: each setsig event overwrites one entry. -/
def dispAfter (f : Sig → Disp) (es : List Event) : Sig → Disp :=
  es.foldl
    (fun g e =>
      match e with
      | Event.setsig s d => setDisp g s d
      | _ => g)
    f

/-! File descriptor model for the pipeline claims. -/

/-- What a descriptor slot refers to: a standard stream inherited from
before the dispatch, one of the two pipe ends, or an opened file. -/
inductive FdTarget where
  | std (n : Nat)
  | pipeRead
  | pipeWrite
  | file (path : String)
deriving DecidableEq, Repr

abbrev FdTable := List (Nat × FdTarget)

/-- Descriptors of a process before a dispatch begins. -/
def initialFds : FdTable := [(0, FdTarget.std 0), (1, FdTarget.std 1), (2, FdTarget.std 2)]

/-- Descriptors right after pipe(2): the read end in slot 3 and the write
end in slot 4. -/
def afterPipe : FdTable :=
  initialFds ++ [(3, FdTarget.pipeRead), (4, FdTarget.pipeWrite)]

def fdClose (t : FdTable) (fd : Nat) : FdTable := t.filter (fun p => p.1 != fd)

def fdLookup (t : FdTable) (fd : Nat) : Option FdTarget :=
  (t.find? (fun p => p.1 == fd)).map Prod.snd

/-- Effect of one call on the descriptor table of the process performing
it: close removes a slot, dup2(src, dst) makes dst refer to whatever src
refers to (closing dst first), open installs the file in its slot; fork,
wait, setsig and exec do not change the table. -/
def applyEvent (t : FdTable) (e : Event) : FdTable :=
  match e with
  | Event.closeFd n => fdClose t n
  | Event.dup src dst =>
      match fdLookup t src with
      | some tgt => fdClose t dst ++ [(dst, tgt)]
      | none => t
  | Event.openFile p fd => t ++ [(fd, FdTarget.file p)]
  | _ => t

def runFds (t : FdTable) (es : List Event) : FdTable := es.foldl applyEvent t

def isPipeRef : FdTarget → Bool
  | FdTarget.pipeRead => true
  | FdTarget.pipeWrite => true
  | _ => false

/-- The slots of a table that still refer to a pipe end. -/
def pipeRefs (t : FdTable) : FdTable := t.filter (fun p => isPipeRef p.2)

/-- True when some occurrence of the first event strictly precedes an
occurrence of the second. -/
def eventBefore : List Event → Event → Event → Bool
  | [], _, _ => false
  | e :: rest, e1, e2 => if e == e1 then rest.contains e2 else eventBefore rest e1 e2

/-- Scans a parent event list and checks that every wait is preceded by
both forks and by the closing of both pipe descriptor slots. -/
def waitsPrefixOk : List Event → List Event → Bool
  | _, [] => true
  | seen, e :: rest =>
    (match e with
     | Event.wait _ =>
         seen.contains (Event.fork 1) && seen.contains (Event.fork 2) &&
           seen.contains (Event.closeFd 3) && seen.contains (Event.closeFd 4)
     | _ => true) &&
      waitsPrefixOk (e :: seen) rest

def waitsAfterForksAndCloses (es : List Event) : Bool := waitsPrefixOk [] es

/-! Concrete environments used by the closed theorems. -/

/-- Every syscall succeeds. -/
def env0 : Env := ⟨true, true, true, true, true, true, none, none⟩

/-- The first fork fails; everything else would succeed. -/
def envForkFail : Env := ⟨true, false, true, true, true, true, none, none⟩

/-- The first wait fails with ECHILD. -/
def envEchild : Env := ⟨true, true, true, true, true, true, some ECHILD, none⟩

/-- The first wait fails with EINTR. -/
def envEintr : Env := ⟨true, true, true, true, true, true, some EINTR, none⟩

/-- The first wait fails with EIO, a non-benign errno. -/
def envEio : Env := ⟨true, true, true, true, true, true, some EIO, none⟩

/-- Exec fails in every child (unknown executable name). -/
def envExecFail : Env := ⟨true, true, true, true, false, false, none, none⟩

/-- The event list of the child of a concrete redirected dispatch, used
to inspect the signal resets the redirected child performs. -/
def redirectChildEvs : List Event :=
  ((process_arglist env0 4 (ofTokens ["c", "x", ">", "f"])).children.map Prod.fst).headD []

/-! Helper lemmas. -/

theorem get?_set_none_ne :
    ∀ (l : Argv) (i j : Nat), i ≠ j → (l.set i none).get? j = l.get? j
  | [], _, _, _ => rfl
  | _ :: _, 0, 0, h => absurd rfl h
  | _ :: _, 0, _ + 1, _ => rfl
  | _ :: _, _ + 1, 0, _ => rfl
  | _ :: xs, i + 1, j + 1, h => get?_set_none_ne xs i j (fun e => h (by omega))

theorem argAt_setNullAt_ne (a : Argv) (m : Int) (k : Nat) (h : (k : Int) ≠ m) :
    argAt (setNullAt a m) k = argAt a k := by
  unfold setNullAt
  split
  · next hm =>
      have hk : m.toNat ≠ k := by omega
      unfold argAt
      rw [get?_set_none_ne _ _ _ hk]
  · rfl

theorem findMarkerFuel_first_pipe (a : Argv) (n i : Nat) (hin : i < n)
    (hp : argAt a i = some "|") :
    ∀ fuel i0, i0 ≤ i → i < i0 + fuel →
      (∀ k, i0 ≤ k → k < i → argAt a k ≠ some "|" ∧ argAt a k ≠ some ">") →
      findMarkerFuel a n i0 fuel = some (true, i) := by
  intro fuel
  induction fuel with
  | zero => intro i0 h1 h2 _; omega
  | succ f ih =>
    intro i0 h1 h2 hmin
    rcases eq_or_lt_of_le h1 with he | hlt
    · subst he
      simp only [findMarkerFuel, if_pos hin, hp]
      rfl
    · have hi0n : i0 < n := lt_trans hlt hin
      have hm := hmin i0 le_rfl hlt
      simp only [findMarkerFuel, if_pos hi0n]
      cases h0 : argAt a i0 with
      | none => exact ih (i0 + 1) hlt (by omega) (fun k hk1 hk2 => hmin k (by omega) hk2)
      | some s =>
        have hs1 : ¬s = "|" := fun e => hm.1 (by rw [h0, e])
        have hs2 : ¬s = ">" := fun e => hm.2 (by rw [h0, e])
        simp only [if_neg hs1, if_neg hs2]
        exact ih (i0 + 1) hlt (by omega) (fun k hk1 hk2 => hmin k (by omega) hk2)

theorem findMarkerFuel_first_redirect (a : Argv) (n i : Nat) (hin : i < n)
    (hp : argAt a i = some ">") :
    ∀ fuel i0, i0 ≤ i → i < i0 + fuel →
      (∀ k, i0 ≤ k → k < i → argAt a k ≠ some "|" ∧ argAt a k ≠ some ">") →
      findMarkerFuel a n i0 fuel = some (false, i) := by
  intro fuel
  induction fuel with
  | zero => intro i0 h1 h2 _; omega
  | succ f ih =>
    intro i0 h1 h2 hmin
    rcases eq_or_lt_of_le h1 with he | hlt
    · subst he
      simp only [findMarkerFuel, if_pos hin, hp]
      rfl
    · have hi0n : i0 < n := lt_trans hlt hin
      have hm := hmin i0 le_rfl hlt
      simp only [findMarkerFuel, if_pos hi0n]
      cases h0 : argAt a i0 with
      | none => exact ih (i0 + 1) hlt (by omega) (fun k hk1 hk2 => hmin k (by omega) hk2)
      | some s =>
        have hs1 : ¬s = "|" := fun e => hm.1 (by rw [h0, e])
        have hs2 : ¬s = ">" := fun e => hm.2 (by rw [h0, e])
        simp only [if_neg hs1, if_neg hs2]
        exact ih (i0 + 1) hlt (by omega) (fun k hk1 hk2 => hmin k (by omega) hk2)

theorem findMarkerFuel_none (a : Argv) (n : Nat) :
    ∀ fuel i0,
      (∀ k, i0 ≤ k → k < n → argAt a k ≠ some "|" ∧ argAt a k ≠ some ">") →
      findMarkerFuel a n i0 fuel = none := by
  intro fuel
  induction fuel with
  | zero => intro i0 _; rfl
  | succ f ih =>
    intro i0 hmin
    by_cases hi : i0 < n
    · have hm := hmin i0 le_rfl hi
      simp only [findMarkerFuel, if_pos hi]
      cases h0 : argAt a i0 with
      | none => exact ih (i0 + 1) (fun k hk1 hk2 => hmin k (by omega) hk2)
      | some s =>
        have hs1 : ¬s = "|" := fun e => hm.1 (by rw [h0, e])
        have hs2 : ¬s = ">" := fun e => hm.2 (by rw [h0, e])
        simp only [if_neg hs1, if_neg hs2]
        exact ih (i0 + 1) (fun k hk1 hk2 => hmin k (by omega) hk2)
    · simp only [findMarkerFuel, if_neg hi]

theorem childFate_exec_fail (a : Argv) (start : Nat) :
    childFate a start false = ChildFate.exited EXIT_FAILURE := by
  unfold childFate
  cases argAt a start <;> simp

theorem execute_sync_ret_ok (env : Env) (a : Argv) (hf : env.fork1Ok = true)
    (hw : wait_and_handle_error env.wait1Err = true) :
    (execute_sync env a).ret = Ret.ret 1 := by
  cases hE : env.wait1Err with
  | none => simp [execute_sync, hf, hE]
  | some e =>
    have hc : e = ECHILD ∨ e = EINTR := by
      rw [hE] at hw
      by_contra hc
      have hfe : wait_and_handle_error (some e) = false := by
        simp [wait_and_handle_error, hc]
      rw [hfe] at hw
      exact Bool.false_ne_true hw
    simp [execute_sync, hf, hE, hc]

theorem execute_async_ret_ok (env : Env) (n : Int) (a : Argv)
    (hf : env.fork1Ok = true) : (execute_async env n a).ret = Ret.ret 1 := by
  simp [execute_async, hf]

theorem establish_pipe_ret_ok (env : Env) (i : Nat) (a : Argv)
    (hp : env.pipeOk = true) (hf1 : env.fork1Ok = true) (hf2 : env.fork2Ok = true)
    (hw1 : wait_and_handle_error env.wait1Err = true)
    (hw2 : wait_and_handle_error env.wait2Err = true) :
    (establish_pipe env i a).ret = Ret.ret 1 := by
  simp [establish_pipe, hp, hf1, hf2, hw1, hw2]

theorem setup_output_redirection_ret_ok (env : Env) (n : Int) (a : Argv)
    (hf1 : env.fork1Ok = true) (hw1 : wait_and_handle_error env.wait1Err = true) :
    (setup_output_redirection env n a).ret = Ret.ret 1 := by
  simp [setup_output_redirection, hf1, hw1]

theorem execute_sync_child_fail (env : Env) (a : Argv) (hf : env.fork1Ok = true)
    (he : env.exec1Ok = false) :
    ((execute_sync env a).children.map Prod.snd).head? =
      some (ChildFate.exited EXIT_FAILURE) := by
  simp [execute_sync, hf, he, childFate_exec_fail]

theorem execute_async_child_fail (env : Env) (n : Int) (a : Argv)
    (hf : env.fork1Ok = true) (he : env.exec1Ok = false) :
    ((execute_async env n a).children.map Prod.snd).head? =
      some (ChildFate.exited EXIT_FAILURE) := by
  simp [execute_async, execute_child, hf, he, childFate_exec_fail]

theorem establish_pipe_child_fail (env : Env) (i : Nat) (a : Argv)
    (hp : env.pipeOk = true) (hf1 : env.fork1Ok = true) (hf2 : env.fork2Ok = true)
    (he : env.exec1Ok = false) :
    ((establish_pipe env i a).children.map Prod.snd).head? =
      some (ChildFate.exited EXIT_FAILURE) := by
  simp [establish_pipe, hp, hf1, hf2, he, childFate_exec_fail]

theorem setup_output_redirection_child_fail (env : Env) (n : Int) (a : Argv)
    (hf1 : env.fork1Ok = true) (he : env.exec1Ok = false) :
    ((setup_output_redirection env n a).children.map Prod.snd).head? =
      some (ChildFate.exited EXIT_FAILURE) := by
  simp [setup_output_redirection, hf1, he, childFate_exec_fail]

theorem openedPaths_mkDispatch (h : HandlerOut) (m : Mode) (ws : List Int) :
    openedPaths (mkDispatch h m ws) = openedPathsH h := rfl

theorem establish_pipe_no_open (env : Env) (i : Nat) (a : Argv) :
    openedPathsH (establish_pipe env i a) = [] := by
  obtain ⟨p, f1, f2, o, e1, e2, w1, w2⟩ := env
  cases p <;> cases f1 <;> cases f2 <;> rfl

/-! Claim theorems. -/

/-- Claim C1: the claim states that a redirected dispatch overwrites the
redirect-marker position with the terminator, takes the token one past
the marker as the target filename, and execs the command segment before
the marker with stdout wired to that file.  The code instead passes the
marker index to setup_output_redirection, whose body treats it as a
count: on ["echo","ok",">","/tmp/out"] (marker at index 2) it overwrites
index 0 (the command itself), opens "ok" (the token before the marker)
as the redirect target, and the child then fails to exec the NULL
program and exits with EXIT_FAILURE, so /tmp/out is never touched. -/
theorem c1_redirect_marker_mishandled :
    openedPaths (process_arglist env0 4 (ofTokens ["echo", "ok", ">", "/tmp/out"])) = ["ok"] ∧
    ("ok" : String) ≠ "/tmp/out" ∧
    (process_arglist env0 4 (ofTokens ["echo", "ok", ">", "/tmp/out"])).writes = [(0 : Int)] ∧
    dispatchFates (process_arglist env0 4 (ofTokens ["echo", "ok", ">", "/tmp/out"])) =
      [ChildFate.exited EXIT_FAILURE] := by
  decide

/-- Claim C2: the claim states that a background dispatch removes exactly
the trailing background marker before exec.  The code removes the marker
in process_arglist and decrements the count, and execute_child then
overwrites cmd_args[count - 1] again with the decremented count: on
["echo","hi","&"] the child execs ["echo"], dropping "hi" as well. -/
theorem c2_background_child_drops_argument :
    execArgvs (process_arglist env0 3 (ofTokens ["echo", "hi", "&"])) = [["echo"]] ∧
    (["echo"] : List String) ≠ ["echo", "hi"] := by
  decide

/-- Claim C3: the claim states that a fork failure makes the dispatch
return a failure signal while the shell keeps running.  In the code
every fork failure calls error_handling, which exits the whole shell
with EXIT_FAILURE; the return 0 statements after it are unreachable.
This holds on all four dispatch paths. -/
theorem c3_fork_failure_exits_shell :
    (process_arglist envForkFail 1 (ofTokens ["ls"])).ret = Ret.exited EXIT_FAILURE ∧
    (process_arglist envForkFail 3 (ofTokens ["a", "|", "b"])).ret = Ret.exited EXIT_FAILURE ∧
    (process_arglist envForkFail 4 (ofTokens ["a", "x", ">", "f"])).ret = Ret.exited EXIT_FAILURE ∧
    (process_arglist envForkFail 2 (ofTokens ["x", "&"])).ret = Ret.exited EXIT_FAILURE ∧
    Ret.exited EXIT_FAILURE ≠ Ret.ret 0 := by
  decide

/-- Claim C4, counterexample: the claim states that every vector ending
in "&" is dispatched without blocking, including vectors that also hold
a pipe or redirect marker.  On ["a","|","b","&"] the code strips the
marker, classifies the command as piped, and establish_pipe performs two
blocking waits, so the dispatch does block. -/
theorem c4_counterexample_trailing_amp_with_pipe_blocks :
    argAt (ofTokens ["a", "|", "b", "&"]) 3 = some "&" ∧
    (process_arglist env0 4 (ofTokens ["a", "|", "b", "&"])).mode = Mode.piped 1 ∧
    waitCount (process_arglist env0 4 (ofTokens ["a", "|", "b", "&"])).parentEvents = 2 := by
  decide

/-- Claim C4, amended: a vector whose last token is "&" and whose
remaining tokens contain no pipe or redirect marker is dispatched in
background mode, and the parent performs no wait at all. -/
theorem c4_background_dispatch_never_waits (env : Env) (num_args : Nat) (cmd_args : Argv)
    (hn : 0 < num_args) (hamp : argAt cmd_args (num_args - 1) = some "&")
    (hnomark : ∀ k, k < num_args - 1 →
      argAt cmd_args k ≠ some "|" ∧ argAt cmd_args k ≠ some ">") :
    (process_arglist env num_args cmd_args).mode = Mode.background ∧
    waitCount (process_arglist env num_args cmd_args).parentEvents = 0 := by
  have hbg : 0 < num_args ∧ argAt cmd_args (num_args - 1) = some "&" := ⟨hn, hamp⟩
  have ha2 : ∀ k, k < num_args - 1 →
      argAt (setNullAt cmd_args ((num_args : Int) - 1)) k = argAt cmd_args k :=
    fun k hk => argAt_setNullAt_ne _ _ _ (by omega)
  have hfm : findMarker (setNullAt cmd_args ((num_args : Int) - 1)) (num_args - 1) = none := by
    unfold findMarker
    exact findMarkerFuel_none _ _ (num_args - 1) 0
      (fun k _ hk2 => by rw [ha2 k hk2]; exact hnomark k hk2)
  simp only [process_arglist, if_pos hbg, hfm]
  constructor
  · simp [mkDispatch]
  · obtain ⟨p, f1, f2, o, e1, e2, w1, w2⟩ := env
    cases f1 <;> rfl

/-- Witness for the amended claim C4 at a concrete background command. -/
theorem c4_witness :
    (process_arglist env0 3 (ofTokens ["sleep", "9", "&"])).mode = Mode.background ∧
    waitCount (process_arglist env0 3 (ofTokens ["sleep", "9", "&"])).parentEvents = 0 :=
  c4_background_dispatch_never_waits env0 3 (ofTokens ["sleep", "9", "&"]) (by decide)
    (by decide) (by decide)

/-- Claim C5: benign wait failures (ECHILD, EINTR) are indeed tolerated
and the dispatch returns success; but a serious wait failure (EIO here)
on the foreground path reaches error_handling in execute_sync and exits
the whole shell instead of returning the failure signal 0 that the claim
describes (the piped and redirected paths do return 0, through
wait_and_handle_error). -/
theorem c5_serious_wait_failure_exits_shell_on_foreground :
    (process_arglist envEchild 1 (ofTokens ["x"])).ret = Ret.ret 1 ∧
    (process_arglist envEintr 1 (ofTokens ["x"])).ret = Ret.ret 1 ∧
    (process_arglist envEio 1 (ofTokens ["x"])).ret = Ret.exited EXIT_FAILURE ∧
    (process_arglist envEio 3 (ofTokens ["a", "|", "b"])).ret = Ret.ret 0 ∧
    (process_arglist envEio 4 (ofTokens ["a", "x", ">", "f"])).ret = Ret.ret 0 := by
  decide

/-- Claim C10: the claim states that every in-place write of a dispatch
of a grammar-conforming vector lands inside [0, count).  On
["cmd",">","file"] the redirect handler receives the marker index 1 and
overwrites cmd_args[1 - 2], an out-of-bounds write at index -1. -/
theorem c10_redirect_truncation_writes_out_of_bounds :
    (process_arglist env0 3 (ofTokens ["cmd", ">", "file"])).writes = [(-1 : Int)] ∧
    ¬(0 ≤ (-1 : Int)) := by
  decide

/-- Claim C8: after prepare both SIGINT and SIGCHLD are ignored in the
shell.  The background child (execute_child) resets only SIGCHLD and
performs no SIGINT reset, so it execs with SIGINT still ignored; the
foreground child, both pipeline children, and the redirected child reset
both signals to the default disposition before exec. -/
theorem c8_signal_dispositions :
    shellDisp Sig.sigint = Disp.ign ∧ shellDisp Sig.sigchld = Disp.ign ∧
    dispAfter shellDisp execute_child_events Sig.sigint = Disp.ign ∧
    dispAfter shellDisp execute_child_events Sig.sigchld = Disp.dfl ∧
    execute_child_events.contains (Event.setsig Sig.sigint Disp.dfl) = false ∧
    dispAfter shellDisp execute_sync_child_events Sig.sigint = Disp.dfl ∧
    dispAfter shellDisp execute_sync_child_events Sig.sigchld = Disp.dfl ∧
    dispAfter shellDisp pipe_child1_events Sig.sigint = Disp.dfl ∧
    dispAfter shellDisp pipe_child1_events Sig.sigchld = Disp.dfl ∧
    dispAfter shellDisp pipe_child2_events Sig.sigint = Disp.dfl ∧
    dispAfter shellDisp pipe_child2_events Sig.sigchld = Disp.dfl ∧
    dispAfter shellDisp redirectChildEvs Sig.sigint = Disp.dfl ∧
    dispAfter shellDisp redirectChildEvs Sig.sigchld = Disp.dfl := by
  decide

/-- Claim C6: whenever fork succeeds (and the waits are benign, as the
ignore-SIGCHLD shell guarantees in practice), a failure of exec inside a
child never reaches the caller of the dispatch: the dispatch still
returns 1, and the failing child itself terminates with the failure exit
status EXIT_FAILURE. -/
theorem c6_exec_failure_only_child (env : Env) (num_args : Nat) (cmd_args : Argv)
    (hp : env.pipeOk = true) (hf1 : env.fork1Ok = true) (hf2 : env.fork2Ok = true)
    (hw1 : wait_and_handle_error env.wait1Err = true)
    (hw2 : wait_and_handle_error env.wait2Err = true)
    (he : env.exec1Ok = false) :
    (process_arglist env num_args cmd_args).ret = Ret.ret 1 ∧
    ((process_arglist env num_args cmd_args).children.map Prod.snd).head? =
      some (ChildFate.exited EXIT_FAILURE) := by
  unfold process_arglist
  split
  · cases hfm : findMarker (setNullAt cmd_args ((num_args : Int) - 1)) (num_args - 1) with
    | none =>
      refine ⟨?_, ?_⟩
      · simpa [mkDispatch] using execute_async_ret_ok env _ _ hf1
      · simpa [mkDispatch] using execute_async_child_fail env _ _ hf1 he
    | some bi =>
      obtain ⟨b, i⟩ := bi
      cases b
      · refine ⟨?_, ?_⟩
        · simpa [mkDispatch] using setup_output_redirection_ret_ok env _ _ hf1 hw1
        · simpa [mkDispatch] using setup_output_redirection_child_fail env _ _ hf1 he
      · refine ⟨?_, ?_⟩
        · simpa [mkDispatch] using establish_pipe_ret_ok env i _ hp hf1 hf2 hw1 hw2
        · simpa [mkDispatch] using establish_pipe_child_fail env i _ hp hf1 hf2 he
  · cases hfm : findMarker cmd_args num_args with
    | none =>
      refine ⟨?_, ?_⟩
      · simpa [mkDispatch] using execute_sync_ret_ok env _ hf1 hw1
      · simpa [mkDispatch] using execute_sync_child_fail env _ hf1 he
    | some bi =>
      obtain ⟨b, i⟩ := bi
      cases b
      · refine ⟨?_, ?_⟩
        · simpa [mkDispatch] using setup_output_redirection_ret_ok env _ _ hf1 hw1
        · simpa [mkDispatch] using setup_output_redirection_child_fail env _ _ hf1 he
      · refine ⟨?_, ?_⟩
        · simpa [mkDispatch] using establish_pipe_ret_ok env i _ hp hf1 hf2 hw1 hw2
        · simpa [mkDispatch] using establish_pipe_child_fail env i _ hp hf1 hf2 he

/-- Witness for claim C6: dispatch of an unknown executable name. -/
theorem c6_witness :
    (process_arglist envExecFail 1 (ofTokens ["nosuch"])).ret = Ret.ret 1 ∧
    ((process_arglist envExecFail 1 (ofTokens ["nosuch"])).children.map Prod.snd).head? =
      some (ChildFate.exited EXIT_FAILURE) :=
  c6_exec_failure_only_child envExecFail 1 (ofTokens ["nosuch"]) rfl rfl rfl rfl rfl rfl

/-- Claim C7: the left-to-right scan of process_arglist stops at the
first marker.  If the first marker of the vector is "|" at index i the
dispatch is piped at i and no redirection file is ever opened; if the
first marker is ">" at index i the dispatch is redirected at i. -/
theorem c7_first_marker_decides (env : Env) (num_args : Nat) (cmd_args : Argv) (i : Nat)
    (hin : i < num_args)
    (hfirst : ∀ k, k < i → argAt cmd_args k ≠ some "|" ∧ argAt cmd_args k ≠ some ">") :
    (argAt cmd_args i = some "|" →
      (process_arglist env num_args cmd_args).mode = Mode.piped i ∧
      openedPaths (process_arglist env num_args cmd_args) = []) ∧
    (argAt cmd_args i = some ">" →
      (process_arglist env num_args cmd_args).mode = Mode.redirected i) := by
  constructor
  · intro hm
    by_cases hbg : 0 < num_args ∧ argAt cmd_args (num_args - 1) = some "&"
    · have hne : i ≠ num_args - 1 := by
        intro e
        rw [e, hbg.2] at hm
        exact absurd hm (by decide)
      have hin2 : i < num_args - 1 := by omega
      have ha2 : ∀ k, k < num_args - 1 →
          argAt (setNullAt cmd_args ((num_args : Int) - 1)) k = argAt cmd_args k :=
        fun k hk => argAt_setNullAt_ne _ _ _ (by omega)
      have hfm : findMarker (setNullAt cmd_args ((num_args : Int) - 1)) (num_args - 1)
          = some (true, i) := by
        unfold findMarker
        exact findMarkerFuel_first_pipe _ _ i hin2 (by rw [ha2 i hin2]; exact hm)
          (num_args - 1) 0 (Nat.zero_le _) (by omega)
          (fun k _ hk2 => by rw [ha2 k (lt_trans hk2 hin2)]; exact hfirst k hk2)
      simp only [process_arglist, if_pos hbg, hfm]
      exact ⟨by simp [mkDispatch],
        by rw [openedPaths_mkDispatch]; exact establish_pipe_no_open env i _⟩
    · have hfm : findMarker cmd_args num_args = some (true, i) := by
        unfold findMarker
        exact findMarkerFuel_first_pipe _ _ i hin hm num_args 0 (Nat.zero_le _)
          (by omega) (fun k _ hk2 => hfirst k hk2)
      simp only [process_arglist, if_neg hbg, hfm]
      exact ⟨by simp [mkDispatch],
        by rw [openedPaths_mkDispatch]; exact establish_pipe_no_open env i _⟩
  · intro hm
    by_cases hbg : 0 < num_args ∧ argAt cmd_args (num_args - 1) = some "&"
    · have hne : i ≠ num_args - 1 := by
        intro e
        rw [e, hbg.2] at hm
        exact absurd hm (by decide)
      have hin2 : i < num_args - 1 := by omega
      have ha2 : ∀ k, k < num_args - 1 →
          argAt (setNullAt cmd_args ((num_args : Int) - 1)) k = argAt cmd_args k :=
        fun k hk => argAt_setNullAt_ne _ _ _ (by omega)
      have hfm : findMarker (setNullAt cmd_args ((num_args : Int) - 1)) (num_args - 1)
          = some (false, i) := by
        unfold findMarker
        exact findMarkerFuel_first_redirect _ _ i hin2 (by rw [ha2 i hin2]; exact hm)
          (num_args - 1) 0 (Nat.zero_le _) (by omega)
          (fun k _ hk2 => by rw [ha2 k (lt_trans hk2 hin2)]; exact hfirst k hk2)
      simp only [process_arglist, if_pos hbg, hfm]
      simp [mkDispatch]
    · have hfm : findMarker cmd_args num_args = some (false, i) := by
        unfold findMarker
        exact findMarkerFuel_first_redirect _ _ i hin hm num_args 0 (Nat.zero_le _)
          (by omega) (fun k _ hk2 => hfirst k hk2)
      simp only [process_arglist, if_neg hbg, hfm]
      simp [mkDispatch]

/-- Witness for claim C7: the tie-break example from the specification. -/
theorem c7_witness :
    (process_arglist env0 5 (ofTokens ["a", "|", "b", ">", "c"])).mode = Mode.piped 1 ∧
    openedPaths (process_arglist env0 5 (ofTokens ["a", "|", "b", ">", "c"])) = [] :=
  (c7_first_marker_decides env0 5 (ofTokens ["a", "|", "b", ">", "c"]) 1 (by decide)
    (by decide)).1 (by decide)

/-- Claim C9: in every pipeline dispatch every parent wait is preceded by
both forks and by the closing of both pipe descriptors; once both forks
succeed the parent descriptor table holds no reference to either pipe
end by the time the dispatch completes; at exec time the first child
references the pipe only through its stdout slot (the write end, the
unused read end closed and the original write descriptor closed after
the dup), and the second child only through its stdin slot (the read
end); the remaining standard stream reference of each child is destroyed
when that child exits, which the parent waits complete before the
dispatch returns. -/
theorem c9_pipe_fd_discipline :
    (∀ (env : Env) (i : Nat) (a : Argv),
        waitsAfterForksAndCloses (establish_pipe env i a).parentEvents = true) ∧
    (∀ (env : Env) (i : Nat) (a : Argv),
        env.pipeOk = true → env.fork1Ok = true → env.fork2Ok = true →
        pipeRefs (runFds afterPipe (establish_pipe env i a).parentEvents) = []) ∧
    pipeRefs (runFds afterPipe pipe_child1_events) = [(1, FdTarget.pipeWrite)] ∧
    pipeRefs (runFds afterPipe pipe_child2_events) = [(0, FdTarget.pipeRead)] ∧
    pipe_child1_events.contains (Event.closeFd 3) = true ∧
    eventBefore pipe_child1_events (Event.dup 4 1) (Event.closeFd 4) = true ∧
    pipe_child2_events.contains (Event.closeFd 4) = true ∧
    eventBefore pipe_child2_events (Event.dup 3 0) (Event.closeFd 3) = true := by
  refine ⟨?_, ?_, by decide, by decide, by decide, by decide, by decide, by decide⟩
  · intro env i a
    obtain ⟨p, f1, f2, o, e1, e2, w1, w2⟩ := env
    cases p
    · rfl
    · cases f1
      · rfl
      · cases f2
        · rfl
        · cases hw : wait_and_handle_error w1 <;> simp [establish_pipe, hw] <;> rfl
  · intro env i a hp hf1 hf2
    obtain ⟨p, f1, f2, o, e1, e2, w1, w2⟩ := env
    cases p
    · exact Bool.noConfusion hp
    · cases f1
      · exact Bool.noConfusion hf1
      · cases f2
        · exact Bool.noConfusion hf2
        · cases hw : wait_and_handle_error w1 <;> simp [establish_pipe, hw] <;> rfl

/-- Witness for claim C9 at a concrete pipeline dispatch. -/
theorem c9_witness :
    pipeRefs (runFds afterPipe
      (establish_pipe env0 1 (ofTokens ["a", "|", "b"])).parentEvents) = [] :=
  c9_pipe_fd_discipline.2.1 env0 1 (ofTokens ["a", "|", "b"]) rfl rfl rfl

end Myshell
